import Mathlib

/-!
Verification of the hilink WebUI client core (src/hilink.go): session
lifecycle, token rotation, the generic request dispatcher and its derived
call shapes, the authentication handshake, and the SMS length guard.

The Go code is shallowly embedded: the HTTP transport is a script of
device behaviours consumed in order, the mutable Client is threaded
explicitly, and the XML codec (which lives in a repository file outside
src/) is modelled from the spec, with byte-level XML parsing abstracted
into an already-parsed tree.
-/

set_option maxRecDepth 100000

namespace Hilink

/-- Concrete error values, named after the Go error variables referenced by
src/hilink.go (the variables themselves are declared in a repository file
outside src/). ErrTransport stands for an arbitrary error returned by
the HTTP client, ErrBodyRead for an arbitrary error from reading the
response body. -/
inductive Err where
  | ErrTransport
  | ErrBadStatusCode
  | ErrBodyRead
  | ErrInvalidXML
  | ErrInvalidResponse
  | ErrInvalidValue
  | ErrMessageTooLong
  deriving DecidableEq, Repr

/-- A decoded Go value as it flows out of decodeXML into the dispatcher's
callers. Go distinguishes the named type mxj.Map from its underlying type
map\x7bstring\x7dinterface: a type assertion to one fails on the other, so the
two map shapes are distinct constructors. -/
inductive GoVal where
  | str (s : String)
  | strMap (fields : List (String × GoVal))
  | mxjMap (fields : List (String × GoVal))

/-- A response body: either malformed markup, or a parsed document with a
single root element holding some content (XML byte-level parsing is
abstracted; the tree is what mxj.NewMapXml would produce). -/
inductive Body where
  | malformed
  | doc (rootName : String) (content : GoVal)

/-- A request payload value: scalar string, numeric literal, or a nested
ordered field sequence. -/
inductive PVal where
  | s (v : String)
  | n (v : Int)
  | sub (fields : List (String × PVal))

/-- An ordered request payload: the order-sensitive sequence of named
fields the encoder serializes. -/
abbrev Payload := List (String × PVal)

/-- DefaultURL is the default URL endpoint for the Hilink WebUI. -/
def DefaultURL : String := "http://192.168.8.1/"

/-- TokenHeader is the header used by the WebUI for CSRF tokens. -/
def TokenHeader : String := "__RequestVerificationToken"

/-- An outgoing HTTP request as the transport sees it. -/
structure HttpRequest where
  method : String
  url : String
  body : Option String
  headers : List (String × String)
  deriving DecidableEq, Repr

/-- An HTTP response delivered by the device: status code, headers, a flag
for a body whose read fails mid-stream, and the (abstracted) body. -/
structure HttpResponse where
  statusCode : Nat
  headers : List (String × String)
  bodyReadErr : Bool
  body : Body

/-- One scripted device behaviour for one exchange: a network-level
failure, or a delivered response. -/
inductive TransportResult where
  | netErr
  | resp (r : HttpResponse)

/-- Go's http.Header.Get: the header value, or the empty string when the
header is absent. -/
def headerGet (hs : List (String × String)) (name : String) : String :=
  (hs.lookup name).getD ""

/-- The mutable Client of src/hilink.go: configuration, the rotating CSRF
token, and the cookie jar (modelled as the optional value of the single
SessionID cookie the code ever installs). -/
structure Client where
  rawurl : String
  authID : String
  authPW : String
  nostart : Bool
  token : String
  jar : Option String
  deriving DecidableEq, Repr

/-- A connection in flight: the Client state, the remaining device script,
and the log of requests handed to the transport. -/
structure Conn where
  client : Client
  pending : List TransportResult
  sent : List HttpRequest

mutual

/-- Modelled from the spec (Markup Codec, encode): serialize one payload
value; a nested sequence becomes nested elements, scalars become text. -/
def encodePVal : PVal → String
  | .s v => v
  | .n v => toString v
  | .sub fields => encodeFields fields

/-- Modelled from the spec (Markup Codec, encode): serialize an ordered
field sequence, preserving field order exactly as supplied, duplicates
included. -/
def encodeFields : List (String × PVal) → String
  | [] => ""
  | (n, v) :: rest => "<" ++ n ++ ">" ++ encodePVal v ++ "</" ++ n ++ ">" ++ encodeFields rest

end

/-- Modelled from the spec (Markup Codec, encode): the ordered field
sequence serialized inside the single request root wrapper. -/
def encodeXML (v : Payload) : String :=
  "<request>" ++ encodeFields v ++ "</request>"

/-- Modelled from the spec (Markup Codec, decode): a malformed body fails
with the invalid-markup error; with unwrap false the full mapping rooted
at the document is returned as an mxj.Map; with unwrap true the root's
content must reduce to a flat mapping, returned as a plain Go map, and
any other shape is an invalid response. -/
def decodeXML (b : Body) (takeFirstEl : Bool) : Except Err GoVal :=
  match b with
  | .malformed => .error .ErrInvalidXML
  | .doc rootName content =>
    if takeFirstEl then
      match content with
      | .strMap fields => .ok (.strMap fields)
      | _ => .error .ErrInvalidResponse
    else .ok (.mxjMap [(rootName, content)])

/-- createRequest of src/hilink.go: GET with no body when the payload is
nil, otherwise POST carrying the encoded payload, the content type, and
the Client's current CSRF token under TokenHeader. URL parsing failures
of the Go http library are out of scope, so construction is total. -/
def createRequest (c : Client) (urlstr : String) (v : Option Payload) : HttpRequest :=
  match v with
  | none => { method := "GET", url := urlstr, body := none, headers := [] }
  | some p =>
    { method := "POST"
      url := urlstr
      body := some (encodeXML p)
      headers := [("Content-Type", "application/x-www-form-urlencoded; charset=UTF-8"),
                  (TokenHeader, c.token)] }

/-- doReq of src/hilink.go: build the request from the current token, hand
it to the transport (consume the next scripted behaviour; an exhausted
script is a network failure), check the status code, harvest a non-empty
token header into the Client, then read and decode the body. -/
def doReq (w : Conn) (path : String) (v : Option Payload) (takeFirstEl : Bool) :
    Conn × Except Err GoVal :=
  let q := createRequest w.client (w.client.rawurl ++ path) v
  match w.pending with
  | [] => ({ w with sent := w.sent ++ [q] }, .error .ErrTransport)
  | tr :: rest =>
    let w1 : Conn := { w with pending := rest, sent := w.sent ++ [q] }
    match tr with
    | .netErr => (w1, .error .ErrTransport)
    | .resp r =>
      if r.statusCode ≠ 200 then (w1, .error .ErrBadStatusCode)
      else
        let tok := headerGet r.headers TokenHeader
        let w2 : Conn :=
          if tok ≠ "" then { w1 with client := { w1.client with token := tok } } else w1
        if r.bodyReadErr then (w2, .error .ErrBodyRead)
        else
          match decodeXML r.body takeFirstEl with
          | .error e => (w2, .error e)
          | .ok m => (w2, .ok m)

/-- doReqString of src/hilink.go: unwrapped request, then project the named
field out of the flat mapping; a non-map result is invalid markup, an
absent field an invalid response, a non-string field an invalid value. -/
def doReqString (w : Conn) (path : String) (v : Option Payload) (elName : String) :
    Conn × Except Err String :=
  match doReq w path v true with
  | (w1, .error e) => (w1, .error e)
  | (w1, .ok res) =>
    match res with
    | .strMap d =>
      match d.lookup elName with
      | none => (w1, .error .ErrInvalidResponse)
      | some (.str s) => (w1, .ok s)
      | some _ => (w1, .error .ErrInvalidValue)
    | _ => (w1, .error .ErrInvalidXML)

/-- doReqCheckOK of src/hilink.go: raw (non-unwrapped) request, then check
for the literal OK in the top-level response field; the result must be an
mxj.Map, the response field must be present, and its value a string. -/
def doReqCheckOK (w : Conn) (path : String) (v : Option Payload) :
    Conn × Except Err Bool :=
  match doReq w path v false with
  | (w1, .error e) => (w1, .error e)
  | (w1, .ok res) =>
    match res with
    | .mxjMap o =>
      match o.lookup "response" with
      | none => (w1, .error .ErrInvalidResponse)
      | some (.str s) => (w1, .ok (s == "OK"))
      | some _ => (w1, .error .ErrInvalidValue)
    | _ => (w1, .error .ErrInvalidResponse)

/-- Do of src/hilink.go: unwrapped request returning the flat mapping. -/
def Do (w : Conn) (path : String) (v : Option Payload) :
    Conn × Except Err (List (String × GoVal)) :=
  match doReq w path v true with
  | (w1, .error e) => (w1, .error e)
  | (w1, .ok res) =>
    match res with
    | .strMap d => (w1, .ok d)
    | _ => (w1, .error .ErrInvalidXML)

/-- Go's strings.TrimPrefix: drop the prefix when present, otherwise the
string unchanged (character-list implementation; for two valid UTF-8
strings a byte prefix is exactly a character prefix). -/
def trimPref (s pre : String) : String :=
  if pre.data.isPrefixOf s.data then String.mk (s.data.drop pre.data.length) else s

/-- NewSessionAndTokenID of src/hilink.go: unauthenticated unwrapped GET of
the session-info endpoint; the result must be a flat mapping holding
string fields SesInfo and TokInfo; the session id is returned with the
fixed literal prefix stripped. -/
def NewSessionAndTokenID (w : Conn) : Conn × Except Err (String × String) :=
  match doReq w "api/webserver/SesTokInfo" none true with
  | (w1, .error e) => (w1, .error e)
  | (w1, .ok res) =>
    match res with
    | .strMap vals =>
      match vals.lookup "SesInfo" with
      | none => (w1, .error .ErrInvalidResponse)
      | some sesInfo =>
        match vals.lookup "TokInfo" with
        | none => (w1, .error .ErrInvalidResponse)
        | some tokInfo =>
          match sesInfo with
          | .str s =>
            match tokInfo with
            | .str t => (w1, .ok (trimPref s "SessionID=", t))
            | _ => (w1, .error .ErrInvalidResponse)
          | _ => (w1, .error .ErrInvalidResponse)
    | _ => (w1, .error .ErrInvalidResponse)

/-- SetSessionAndTokenID of src/hilink.go: replace the cookie jar with a
single SessionID cookie and install the token (cookiejar construction
cannot fail in the model). -/
def SetSessionAndTokenID (w : Conn) (sessionID tokenID : String) : Conn :=
  { w with client := { w.client with jar := some sessionID, token := tokenID } }

/-- UTF-8 encoding of one character, as byte values. -/
def charUtf8 (c : Char) : List Nat :=
  let n := c.toNat
  if n < 128 then [n]
  else if n < 2048 then [192 + n / 64, 128 + n % 64]
  else if n < 65536 then [224 + n / 4096, 128 + (n / 64) % 64, 128 + n % 64]
  else [240 + n / 262144, 128 + (n / 4096) % 64, 128 + (n / 64) % 64, 128 + n % 64]

/-- The UTF-8 bytes of a string, as Go obtains from a string-to-bytes
conversion. -/
def strBytes (s : String) : List Nat :=
  (s.data.map charUtf8).flatten

/-- Addition modulo 2 to the 32. -/
def add32 (a b : Nat) : Nat := (a + b) % 4294967296

/-- Bitwise complement on 32-bit values. -/
def not32 (a : Nat) : Nat := Nat.xor a 4294967295

/-- Right rotation of a 32-bit value by n bits. -/
def rotr32 (n a : Nat) : Nat :=
  (a / 2 ^ n + a % 2 ^ n * 2 ^ (32 - n)) % 4294967296

/-- SHA-256 choose function. -/
def shaCh (x y z : Nat) : Nat := Nat.xor (Nat.land x y) (Nat.land (not32 x) z)

/-- SHA-256 majority function. -/
def shaMaj (x y z : Nat) : Nat :=
  Nat.xor (Nat.xor (Nat.land x y) (Nat.land x z)) (Nat.land y z)

/-- SHA-256 big sigma 0. -/
def bigSigma0 (x : Nat) : Nat := Nat.xor (Nat.xor (rotr32 2 x) (rotr32 13 x)) (rotr32 22 x)

/-- SHA-256 big sigma 1. -/
def bigSigma1 (x : Nat) : Nat := Nat.xor (Nat.xor (rotr32 6 x) (rotr32 11 x)) (rotr32 25 x)

/-- SHA-256 small sigma 0. -/
def smallSigma0 (x : Nat) : Nat := Nat.xor (Nat.xor (rotr32 7 x) (rotr32 18 x)) (x / 8)

/-- SHA-256 small sigma 1. -/
def smallSigma1 (x : Nat) : Nat := Nat.xor (Nat.xor (rotr32 17 x) (rotr32 19 x)) (x / 1024)

/-- The 64 SHA-256 round constants of FIPS 180-4, written in decimal. -/
def shaK : Array Nat := #[
  1116352408, 1899447441, 3049323471, 3921009573,
  961987163, 1508970993, 2453635748, 2870763221,
  3624381080, 310598401, 607225278, 1426881987,
  1925078388, 2162078206, 2614888103, 3248222580,
  3835390401, 4022224774, 264347078, 604807628,
  770255983, 1249150122, 1555081692, 1996064986,
  2554220882, 2821834349, 2952996808, 3210313671,
  3336571891, 3584528711, 113926993, 338241895,
  666307205, 773529912, 1294757372, 1396182291,
  1695183700, 1986661051, 2177026350, 2456956037,
  2730485921, 2820302411, 3259730800, 3345764771,
  3516065817, 3600352804, 4094571909, 275423344,
  430227734, 506948616, 659060556, 883997877,
  958139571, 1322822218, 1537002063, 1747873779,
  1955562222, 2024104815, 2227730452, 2361852424,
  2428436474, 2756734187, 3204031479, 3329325298]

/-- The eight SHA-256 working variables. -/
structure H8 where
  a : Nat
  b : Nat
  c : Nat
  d : Nat
  e : Nat
  f : Nat
  g : Nat
  h : Nat

/-- The SHA-256 initial hash value of FIPS 180-4, written in decimal. -/
def shaH0 : H8 :=
  ⟨1779033703, 3144134277, 1013904242, 2773480762,
   1359893119, 2600822924, 528734635, 1541459225⟩

/-- Message padding: append the 0x80 byte, zeros to 56 mod 64, and the
64-bit big-endian bit length. -/
def shaPad (msg : List Nat) : List Nat :=
  let l := msg.length
  let k := (64 + 55 - (l % 64)) % 64
  let bitLen := 8 * l
  msg ++ [128] ++ List.replicate k 0 ++
    [bitLen / 2 ^ 56 % 256, bitLen / 2 ^ 48 % 256, bitLen / 2 ^ 40 % 256, bitLen / 2 ^ 32 % 256,
     bitLen / 2 ^ 24 % 256, bitLen / 2 ^ 16 % 256, bitLen / 2 ^ 8 % 256, bitLen % 256]

/-- Group bytes into 32-bit big-endian words. -/
def toWords : List Nat → List Nat
  | b0 :: b1 :: b2 :: b3 :: rest => (((b0 * 256 + b1) * 256 + b2) * 256 + b3) :: toWords rest
  | _ => []

/-- Extend the 16 block words to the 64-entry message schedule; the counter
is the number of words still to append. -/
def extendW : Nat → Array Nat → Array Nat
  | 0, w => w
  | n + 1, w =>
    let i := w.size
    let x := add32 (add32 (smallSigma1 (w.getD (i - 2) 0)) (w.getD (i - 7) 0))
                   (add32 (smallSigma0 (w.getD (i - 15) 0)) (w.getD (i - 16) 0))
    extendW n (w.push x)

/-- The SHA-256 compression rounds; the first argument counts the rounds
still to run, the second is the index of the current round. -/
def shaRounds : Nat → Nat → H8 → Array Nat → H8
  | 0, _, s, _ => s
  | n + 1, i, s, w =>
    let t1 := add32 s.h (add32 (bigSigma1 s.e)
                (add32 (shaCh s.e s.f s.g) (add32 (shaK.getD i 0) (w.getD i 0))))
    let t2 := add32 (bigSigma0 s.a) (shaMaj s.a s.b s.c)
    shaRounds n (i + 1) ⟨add32 t1 t2, s.a, s.b, s.c, add32 s.d t1, s.e, s.f, s.g⟩ w

/-- Process one 64-byte block: schedule, 64 rounds, and the feed-forward
addition into the chaining value. -/
def shaBlock (hv : H8) (block : List Nat) : H8 :=
  let w := extendW 48 (List.toArray (toWords block))
  let s := shaRounds 64 0 hv w
  ⟨add32 hv.a s.a, add32 hv.b s.b, add32 hv.c s.c, add32 hv.d s.d,
   add32 hv.e s.e, add32 hv.f s.f, add32 hv.g s.g, add32 hv.h s.h⟩

/-- Split a byte list into 64-byte chunks; the fuel is an upper bound on
the number of chunks, so the list's length always suffices. -/
def chunks64Aux : Nat → List Nat → List (List Nat)
  | _, [] => []
  | 0, l => [l]
  | fuel + 1, x :: xs => (x :: xs).take 64 :: chunks64Aux fuel ((x :: xs).drop 64)

/-- Split a byte list into 64-byte chunks. -/
def chunks64 (l : List Nat) : List (List Nat) :=
  chunks64Aux l.length l

/-- A 32-bit word as four big-endian bytes. -/
def wordBytes (x : Nat) : List Nat :=
  [x / 2 ^ 24 % 256, x / 2 ^ 16 % 256, x / 2 ^ 8 % 256, x % 256]

/-- SHA-256 of a byte sequence, as the 32 digest bytes. -/
def sha256 (msg : List Nat) : List Nat :=
  let hv := (chunks64 (shaPad msg)).foldl shaBlock shaH0
  wordBytes hv.a ++ wordBytes hv.b ++ wordBytes hv.c ++ wordBytes hv.d ++
    wordBytes hv.e ++ wordBytes hv.f ++ wordBytes hv.g ++ wordBytes hv.h

/-- A lowercase hexadecimal digit: 48 is the code of the zero digit, 97
the code of the letter a. -/
def hexDigit (n : Nat) : Char :=
  if n < 10 then Char.ofNat (48 + n) else Char.ofNat (87 + n)

/-- Lowercase hexadecimal rendering of a byte sequence, as Go's
hex.EncodeToString produces. -/
def hexEncode (bs : List Nat) : String :=
  String.mk (bs.flatMap (fun b => [hexDigit (b / 16), hexDigit (b % 16)]))

/-- The standard base64 alphabet. -/
def b64Alphabet : List Char :=
  "ABCDEFGHIJKLMNOPQRSTUVWXYZabcdefghijklmnopqrstuvwxyz0123456789+/".data

/-- One base64 output character. -/
def b64Char (n : Nat) : Char := b64Alphabet.getD n 'A'

/-- Unpadded (raw) standard base64 of a byte sequence, as Go's
base64.RawStdEncoding.EncodeToString produces. -/
def b64RawStd : List Nat → List Char
  | b0 :: b1 :: b2 :: rest =>
    b64Char (b0 / 4) :: b64Char (b0 % 4 * 16 + b1 / 16) ::
      b64Char (b1 % 16 * 4 + b2 / 64) :: b64Char (b2 % 64) :: b64RawStd rest
  | [b0, b1] => [b64Char (b0 / 4), b64Char (b0 % 4 * 16 + b1 / 16), b64Char (b1 % 16 * 4)]
  | [b0] => [b64Char (b0 / 4), b64Char (b0 % 4 * 16)]
  | [] => []

/-- The credential login submits: SHA-256 of the secret concatenated with
the current token, rendered as lowercase hex text, whose ASCII bytes are
then re-encoded with the unpadded standard base64 alphabet. -/
def tokenizedPW (pw tok : String) : String :=
  String.mk (b64RawStd (strBytes (hexEncode (sha256 (strBytes (pw ++ tok))))))

/-- login of src/hilink.go: nothing to do without an identifier; otherwise
submit identifier, the hashed and re-encoded credential, and the fixed
password type 4 through the boolean-acknowledgement call. -/
def login (w : Conn) : Conn × Except Err Bool :=
  if w.client.authID = "" then (w, .ok false)
  else
    doReqCheckOK w "api/user/login" (some [
      ("Username", .s w.client.authID),
      ("Password", .s (tokenizedPW w.client.authPW w.client.token)),
      ("password_type", .n 4)])

/-- The configuration a NewClient call assembles through its options
(option processing itself lives outside src/): endpoint URL, credentials,
and the flag suppressing automatic session bootstrap. -/
structure Config where
  rawurl : String
  authID : String
  authPW : String
  nostart : Bool

/-- The client NewClient assembles before the start-session block: options
applied, URL defaulted, no token and no cookie jar yet. -/
def initConn (cfg : Config) (device : List TransportResult) : Conn :=
  { client :=
      { rawurl := if cfg.rawurl = "" then DefaultURL else cfg.rawurl
        authID := cfg.authID
        authPW := cfg.authPW
        nostart := cfg.nostart
        token := ""
        jar := none }
    pending := device
    sent := [] }

/-- NewClient of src/hilink.go: build the client (defaulting the URL),
and unless suppressed bootstrap the session, install it, and attempt the
login, aborting construction on any error; the login's boolean result is
discarded. -/
def NewClient (cfg : Config) (device : List TransportResult) : Except Err Conn :=
  let w : Conn := initConn cfg device
  if cfg.nostart then .ok w
  else
    match NewSessionAndTokenID w with
    | (_, .error e) => .error e
    | (w1, .ok (sessID, tokID)) =>
      let w2 := SetSessionAndTokenID w1 sessID tokID
      match login w2 with
      | (_, .error e) => .error e
      | (w3, .ok _) => .ok w3

/-- Modelled from the spec (Ordered Field Encoder, repeated-field block):
the xmlPairs helper of the repository's markup file renders each
name/value pair as an indented element on its own line. -/
def xmlPairs (indent : String) : List (String × String) → String
  | [] => ""
  | (n, v) :: rest => indent ++ "<" ++ n ++ ">" ++ v ++ "</" ++ n ++ ">\n" ++ xmlPairs indent rest

/-- The ordered send-sms payload SmsSend builds (order matters; the
wall-clock date string is passed in explicitly). -/
def smsPayload (msg : String) (dst : List String) (now : String) : Payload :=
  [("Index", .s "-1"),
   ("Phones", .s ("\n" ++ xmlPairs "    " (dst.map (fun t => ("Phone", t))))),
   ("Sca", .s ""),
   ("Content", .s msg),
   ("Length", .s (toString (strBytes msg).length)),
   ("Reserved", .s "1"),
   ("Date", .s now)]

/-- SmsSend of src/hilink.go: reject a message of 160 or more bytes before
any request is issued, otherwise submit the ordered send-sms payload. -/
def SmsSend (w : Conn) (msg : String) (dst : List String) (now : String) :
    Conn × Except Err Bool :=
  if 160 ≤ (strBytes msg).length then (w, .error .ErrMessageTooLong)
  else doReqCheckOK w "api/sms/send-sms" (some (smsPayload msg dst now))

/-! ## Helper lemmas on the dispatcher -/

/-- The dispatcher hands the transport exactly the request built by
createRequest from the current client state, whatever the outcome. -/
theorem doReq_sent (w : Conn) (path : String) (v : Option Payload) (u : Bool) :
    ((doReq w path v u).1).sent =
      w.sent ++ [createRequest w.client (w.client.rawurl ++ path) v] := by
  unfold doReq
  cases hp : w.pending with
  | nil => rfl
  | cons tr rest =>
    cases tr with
    | netErr => rfl
    | resp r =>
      by_cases hs : r.statusCode = 200
      · by_cases hb : r.bodyReadErr
        · simp only [hs, hb]
          simp
          split <;> rfl
        · cases hdec : decodeXML r.body u <;>
            · simp [hs, hb, hdec]
              split <;> rfl
      · simp [hs]

/-- A completed exchange with a success status and readable body: the
client keeps a non-empty harvested token, consumes one scripted
behaviour, logs the one request, and returns the decode outcome. -/
theorem doReq_resp_ok (w : Conn) (path : String) (v : Option Payload) (u : Bool)
    (r : HttpResponse) (rest : List TransportResult)
    (hp : w.pending = .resp r :: rest) (hs : r.statusCode = 200) (hb : r.bodyReadErr = false) :
    doReq w path v u =
      ({ client := if headerGet r.headers TokenHeader ≠ "" then
            { w.client with token := headerGet r.headers TokenHeader } else w.client,
         pending := rest,
         sent := w.sent ++ [createRequest w.client (w.client.rawurl ++ path) v] },
       decodeXML r.body u) := by
  unfold doReq
  rw [hp]
  cases hdec : decodeXML r.body u <;>
    · simp [hs, hb, hdec]
      split <;> simp_all

/-- The dispatcher never touches the cookie jar. -/
theorem doReq_jar (w : Conn) (path : String) (v : Option Payload) (u : Bool) :
    ((doReq w path v u).1).client.jar = w.client.jar := by
  unfold doReq
  cases w.pending with
  | nil => rfl
  | cons tr rest =>
    cases tr with
    | netErr => rfl
    | resp r =>
      by_cases hs : r.statusCode = 200
      · by_cases hb : r.bodyReadErr
        · simp [hs, hb]
          split <;> rfl
        · cases hdec : decodeXML r.body u <;>
            · simp [hs, hb, hdec]
              split <;> rfl
      · simp [hs]

/-- The token after one dispatcher exchange: the harvested header value
exactly when a response was delivered with a success status and a
non-empty token header, and the previous token otherwise. -/
theorem doReq_token (w : Conn) (path : String) (v : Option Payload) (u : Bool) :
    ((doReq w path v u).1).client.token =
      (match w.pending with
       | .resp r :: _ =>
         if r.statusCode = 200 ∧ headerGet r.headers TokenHeader ≠ "" then
           headerGet r.headers TokenHeader
         else w.client.token
       | _ => w.client.token) := by
  cases hp : w.pending with
  | nil => unfold doReq; rw [hp]
  | cons tr rest =>
    cases tr with
    | netErr => unfold doReq; rw [hp]
    | resp r =>
      unfold doReq
      rw [hp]
      by_cases hs : r.statusCode = 200
      · by_cases htok : headerGet r.headers TokenHeader = ""
        · by_cases hb : r.bodyReadErr
          · simp [hs, htok, hb]
          · cases hdec : decodeXML r.body u <;> simp [hs, htok, hb, hdec]
        · by_cases hb : r.bodyReadErr
          · simp [hs, htok, hb]
          · cases hdec : decodeXML r.body u <;> simp [hs, htok, hb, hdec]
      · simp [hs]

/-- doReqCheckOK returns whatever connection state the underlying raw
exchange left behind, in every branch. -/
theorem doReqCheckOK_conn (w : Conn) (path : String) (v : Option Payload) :
    (doReqCheckOK w path v).1 = (doReq w path v false).1 := by
  unfold doReqCheckOK
  cases h : doReq w path v false with
  | mk w1 res =>
    cases res with
    | error e => rfl
    | ok m =>
      cases m with
      | str s => rfl
      | strMap d => rfl
      | mxjMap o =>
        cases hl : o.lookup "response" with
        | none => simp [hl]
        | some g => cases g <;> simp [hl]

/-- A delivered response with a non-success status fails with the bad
status error, before the token is consulted. -/
theorem doReq_resp_badStatus (w : Conn) (path : String) (v : Option Payload) (u : Bool)
    (r : HttpResponse) (rest : List TransportResult)
    (hp : w.pending = .resp r :: rest) (hs : r.statusCode ≠ 200) :
    doReq w path v u =
      ({ client := w.client, pending := rest,
         sent := w.sent ++ [createRequest w.client (w.client.rawurl ++ path) v] },
       .error .ErrBadStatusCode) := by
  unfold doReq
  rw [hp]
  simp [hs]

/-- A delivered success response whose body read fails: the error is
returned, but the harvested token is already kept. -/
theorem doReq_resp_bodyErr (w : Conn) (path : String) (v : Option Payload) (u : Bool)
    (r : HttpResponse) (rest : List TransportResult)
    (hp : w.pending = .resp r :: rest) (hs : r.statusCode = 200) (hb : r.bodyReadErr = true) :
    doReq w path v u =
      ({ client := if headerGet r.headers TokenHeader ≠ "" then
            { w.client with token := headerGet r.headers TokenHeader } else w.client,
         pending := rest,
         sent := w.sent ++ [createRequest w.client (w.client.rawurl ++ path) v] },
       .error .ErrBodyRead) := by
  unfold doReq
  rw [hp]
  simp [hs, hb]
  split <;> simp_all

/-- Inversion of a fully successful exchange: a delivered response that
ends in a decoded value implies a success status, a readable body, and
that the value is the decode of that body. -/
theorem doReq_ok_inv (w : Conn) (path : String) (v : Option Payload) (u : Bool)
    (r : HttpResponse) (rest : List TransportResult) (w1 : Conn) (m : GoVal)
    (hp : w.pending = .resp r :: rest) (hA : doReq w path v u = (w1, .ok m)) :
    r.statusCode = 200 ∧ r.bodyReadErr = false ∧ decodeXML r.body u = .ok m := by
  by_cases hs : r.statusCode = 200
  · by_cases hb : r.bodyReadErr
    · rw [doReq_resp_bodyErr w path v u r rest hp hs hb] at hA
      simp at hA
    · have hb' : r.bodyReadErr = false := by simpa using hb
      rw [doReq_resp_ok w path v u r rest hp hs hb'] at hA
      have h2 := congrArg Prod.snd hA
      simp at h2
      exact ⟨hs, hb', h2⟩
  · rw [doReq_resp_badStatus w path v u r rest hp hs] at hA
    simp at hA

/-! ## Sanity checks of the hash pipeline against the FIPS 180-4 test
vectors -/

/-- SHA-256 of the empty message matches the published test vector. -/
theorem sha256_vector_empty :
    hexEncode (sha256 (strBytes "")) =
      "e3b0c44298fc1c149afbf4c8996fb92427ae41e4649b934ca495991b7852b855" := by
  rfl

/-- SHA-256 of the message abc matches the published test vector. -/
theorem sha256_vector_abc :
    hexEncode (sha256 (strBytes "abc")) =
      "ba7816bf8f01cfea414140de5dae2223b00361a396177a9cb410ff61f20015ad" := by
  rfl

/-- SHA-256 of the published two-block test message. -/
theorem sha256_vector_two_blocks :
    hexEncode (sha256 (strBytes "abcdbcdecdefdefgefghfghighijhijkijkljklmklmnlmnomnopnopq")) =
      "248d6a61d20638b8e5c026930c3e6039a33ce45964ff2167f6ecedd419db06c1" := by
  rfl

/-! ## Claim C5: authentication handshake credential -/

/-- C5: with an identifier configured, login submits the identifier, the
credential obtained by SHA-256 hashing the secret concatenated with the
current token, rendering the digest as lowercase hex and re-encoding the
hex text with the unpadded standard base64 alphabet, and the fixed
numeric password type 4, through the boolean-acknowledgement call path;
the digest for secret pw and token tok is the digest of the literal
pwtok, and changing only the token changes the submitted credential. -/
theorem login_handshake_credential (w : Conn) (h : w.client.authID ≠ "") :
    login w = doReqCheckOK w "api/user/login" (some [
        ("Username", PVal.s w.client.authID),
        ("Password", PVal.s (tokenizedPW w.client.authPW w.client.token)),
        ("password_type", PVal.n 4)]) ∧
    tokenizedPW w.client.authPW w.client.token =
      String.mk (b64RawStd (strBytes (hexEncode
        (sha256 (strBytes (w.client.authPW ++ w.client.token)))))) ∧
    sha256 (strBytes ("pw" ++ "tok")) = sha256 (strBytes "pwtok") ∧
    tokenizedPW "pw" "tok" ≠ tokenizedPW "pw" "tok2" := by
  refine ⟨?_, rfl, rfl, by decide⟩
  unfold login
  rw [if_neg h]

/-- Witness for C5 at a concrete client with identifier admin, secret pw
and token tok. -/
theorem login_handshake_credential_witness :
    ("admin" : String) ≠ "" ∧
    login { client := { rawurl := "http://192.168.8.1/", authID := "admin", authPW := "pw",
                        nostart := false, token := "tok", jar := some "s1" },
            pending := [], sent := [] } =
      doReqCheckOK { client := { rawurl := "http://192.168.8.1/", authID := "admin",
                                 authPW := "pw", nostart := false, token := "tok",
                                 jar := some "s1" },
                     pending := [], sent := [] } "api/user/login" (some [
        ("Username", PVal.s "admin"),
        ("Password", PVal.s (tokenizedPW "pw" "tok")),
        ("password_type", PVal.n 4)]) := by
  exact ⟨by decide, (login_handshake_credential _ (by decide)).1⟩

/-! ## Claim C3: request construction -/

/-- C3: the dispatcher always hands the transport the request built by
createRequest from the current client state; a nil payload yields a GET
with no body and no headers, a non-nil payload yields a POST whose body
is the XML-encoded payload with the content type declared and the current
token attached under the fixed token header name; and a request carrying
the token header is necessarily a POST. -/
theorem request_construction (w : Conn) (path : String) (v : Option Payload) (u : Bool) :
    ((doReq w path v u).1).sent =
      w.sent ++ [createRequest w.client (w.client.rawurl ++ path) v] ∧
    (v = none → createRequest w.client (w.client.rawurl ++ path) v =
      { method := "GET", url := w.client.rawurl ++ path, body := none, headers := [] }) ∧
    (∀ p, v = some p → createRequest w.client (w.client.rawurl ++ path) v =
      { method := "POST", url := w.client.rawurl ++ path, body := some (encodeXML p),
        headers := [("Content-Type", "application/x-www-form-urlencoded; charset=UTF-8"),
                    (TokenHeader, w.client.token)] }) ∧
    ((createRequest w.client (w.client.rawurl ++ path) v).headers.lookup TokenHeader ≠ none →
      (createRequest w.client (w.client.rawurl ++ path) v).method = "POST") := by
  refine ⟨doReq_sent w path v u, ?_, ?_, ?_⟩
  · rintro rfl
    rfl
  · rintro p rfl
    rfl
  · intro hne
    cases v with
    | none => simp [createRequest] at hne
    | some p => rfl

/-- Witness for C3: a concrete POST and a concrete GET. -/
theorem request_construction_witness :
    createRequest { rawurl := "u/", authID := "", authPW := "", nostart := true,
                    token := "tk", jar := none } ("u/" ++ "api/x")
        (some [("A", PVal.s "1")]) =
      { method := "POST", url := "u/" ++ "api/x",
        body := some (encodeXML [("A", PVal.s "1")]),
        headers := [("Content-Type", "application/x-www-form-urlencoded; charset=UTF-8"),
                    (TokenHeader, "tk")] } ∧
    createRequest { rawurl := "u/", authID := "", authPW := "", nostart := true,
                    token := "tk", jar := none } ("u/" ++ "api/x") none =
      { method := "GET", url := "u/" ++ "api/x", body := none, headers := [] } := by
  constructor
  · exact (request_construction
      { client := { rawurl := "u/", authID := "", authPW := "", nostart := true,
                    token := "tk", jar := none },
        pending := [], sent := [] } "api/x" (some [("A", PVal.s "1")]) true).2.2.1 _ rfl
  · exact (request_construction
      { client := { rawurl := "u/", authID := "", authPW := "", nostart := true,
                    token := "tk", jar := none },
        pending := [], sent := [] } "api/x" none true).2.1 rfl

/-! ## Claim C1: token freshness invariant -/

/-- C1: for two consecutive successful exchanges A then B on the same
connection, the stored token from which B's request is built (and which a
POST B attaches under the token header) is the token harvested from A's
response headers, or — when A's response carried no rotation, as when A
was the first exchange after bootstrap — the token held before A, which
for a first exchange is the bootstrap token. -/
theorem token_freshness (w : Conn) (pA : String) (vA : Option Payload) (uA : Bool)
    (pB : String) (vB : Option Payload) (uB : Bool)
    (r : HttpResponse) (rest : List TransportResult)
    (w1 w2 : Conn) (mA mB : GoVal)
    (hp : w.pending = .resp r :: rest)
    (hA : doReq w pA vA uA = (w1, .ok mA))
    (hB : doReq w1 pB vB uB = (w2, .ok mB)) :
    (headerGet r.headers TokenHeader ≠ "" →
      w1.client.token = headerGet r.headers TokenHeader) ∧
    (headerGet r.headers TokenHeader = "" →
      w1.client.token = w.client.token) ∧
    w2.sent = w1.sent ++ [createRequest w1.client (w1.client.rawurl ++ pB) vB] ∧
    (∀ p, vB = some p →
      (createRequest w1.client (w1.client.rawurl ++ pB) vB).headers.lookup TokenHeader =
        some w1.client.token) := by
  obtain ⟨hs, hb, hdec⟩ := doReq_ok_inv w pA vA uA r rest w1 mA hp hA
  have hw1 : (doReq w pA vA uA).1 = w1 := by rw [hA]
  have htok := doReq_token w pA vA uA
  rw [hp, hw1] at htok
  have hw2 : (doReq w1 pB vB uB).1 = w2 := by rw [hB]
  refine ⟨?_, ?_, ?_, ?_⟩
  · intro hne
    simpa [hs, hne] using htok
  · intro heq
    simpa [heq] using htok
  · rw [← hw2, doReq_sent]
  · rintro p rfl
    rfl

/-- Witness for C1: a bootstrap token, a first exchange harvesting t1, and
a second POST exchange attaching exactly t1. -/
theorem token_freshness_witness :
    ({ client := { rawurl := "u/", authID := "", authPW := "", nostart := false,
                   token := "t1", jar := some "s1" },
       pending := [TransportResult.resp
         { statusCode := 200, headers := [(TokenHeader, "t2")], bodyReadErr := false,
           body := .doc "response" (.strMap []) }],
       sent := [{ method := "GET", url := "u/" ++ "pA", body := none,
                  headers := [] }] } : Conn).client.token = "t1" ∧
    (createRequest { rawurl := "u/", authID := "", authPW := "", nostart := false,
                     token := "t1", jar := some "s1" } ("u/" ++ "pB")
        (some [("X", PVal.s "2")])).headers.lookup TokenHeader = some "t1" := by
  have h := token_freshness
    { client := { rawurl := "u/", authID := "", authPW := "", nostart := false,
                  token := "boot", jar := some "s1" },
      pending := [TransportResult.resp
        { statusCode := 200, headers := [(TokenHeader, "t1")], bodyReadErr := false,
          body := .doc "response" (.strMap [("a", GoVal.str "1")]) },
        TransportResult.resp
        { statusCode := 200, headers := [(TokenHeader, "t2")], bodyReadErr := false,
          body := .doc "response" (.strMap []) }],
      sent := [] }
    "pA" none true "pB" (some [("X", PVal.s "2")]) true
    { statusCode := 200, headers := [(TokenHeader, "t1")], bodyReadErr := false,
      body := .doc "response" (.strMap [("a", GoVal.str "1")]) }
    [TransportResult.resp
      { statusCode := 200, headers := [(TokenHeader, "t2")], bodyReadErr := false,
        body := .doc "response" (.strMap []) }]
    { client := { rawurl := "u/", authID := "", authPW := "", nostart := false,
                  token := "t1", jar := some "s1" },
      pending := [TransportResult.resp
        { statusCode := 200, headers := [(TokenHeader, "t2")], bodyReadErr := false,
          body := .doc "response" (.strMap []) }],
      sent := [{ method := "GET", url := "u/" ++ "pA", body := none, headers := [] }] }
    { client := { rawurl := "u/", authID := "", authPW := "", nostart := false,
                  token := "t2", jar := some "s1" },
      pending := [],
      sent := [{ method := "GET", url := "u/" ++ "pA", body := none, headers := [] },
               createRequest
                 { rawurl := "u/", authID := "", authPW := "", nostart := false,
                   token := "t1", jar := some "s1" } ("u/" ++ "pB")
                 (some [("X", PVal.s "2")])] }
    (.strMap [("a", GoVal.str "1")]) (.strMap []) rfl rfl rfl
  exact ⟨h.1 (by decide), h.2.2.2 _ rfl⟩

/-! ## Claim C2: token rotation condition -/

/-- C2: the stored token after an exchange is the response's token header
value exactly when a response was delivered with a success status and
that header value is non-empty, and the previous token otherwise; the
rotation is kept even when the body read fails (the error is still
returned), and with a success status and readable body the outcome is
exactly the decode outcome, so an absent token header is not an error. -/
theorem token_rotation (w : Conn) (path : String) (v : Option Payload) (u : Bool) :
    (∀ r rest, w.pending = .resp r :: rest →
      ((doReq w path v u).1).client.token =
        (if r.statusCode = 200 ∧ headerGet r.headers TokenHeader ≠ "" then
          headerGet r.headers TokenHeader
        else w.client.token)) ∧
    ((∀ r rest, w.pending ≠ TransportResult.resp r :: rest) →
      ((doReq w path v u).1).client.token = w.client.token) ∧
    (∀ r rest, w.pending = .resp r :: rest → r.statusCode = 200 → r.bodyReadErr = true →
      (doReq w path v u).2 = .error .ErrBodyRead) ∧
    (∀ r rest, w.pending = .resp r :: rest → r.statusCode = 200 → r.bodyReadErr = false →
      (doReq w path v u).2 = decodeXML r.body u) := by
  refine ⟨?_, ?_, ?_, ?_⟩
  · intro r rest hp
    have htok := doReq_token w path v u
    rw [hp] at htok
    exact htok
  · intro hne
    have htok := doReq_token w path v u
    cases hp : w.pending with
    | nil => rw [hp] at htok; exact htok
    | cons tr rest =>
      cases tr with
      | netErr => rw [hp] at htok; exact htok
      | resp r => exact absurd hp (hne r rest)
  · intro r rest hp hs hb
    rw [doReq_resp_bodyErr w path v u r rest hp hs hb]
  · intro r rest hp hs hb
    rw [doReq_resp_ok w path v u r rest hp hs hb]

/-- Witness for C2: a success response with token header t9 and a
malformed body rotates the token to t9 while still returning the decode
error. -/
theorem token_rotation_witness :
    ((doReq { client := { rawurl := "u/", authID := "", authPW := "", nostart := false,
                          token := "boot", jar := none },
              pending := [TransportResult.resp
                { statusCode := 200, headers := [(TokenHeader, "t9")],
                  bodyReadErr := false, body := .malformed }],
              sent := [] } "p" none true).1).client.token = "t9" ∧
    (doReq { client := { rawurl := "u/", authID := "", authPW := "", nostart := false,
                         token := "boot", jar := none },
             pending := [TransportResult.resp
               { statusCode := 200, headers := [(TokenHeader, "t9")],
                 bodyReadErr := false, body := .malformed }],
             sent := [] } "p" none true).2 = .error .ErrInvalidXML := by
  have h := token_rotation
    { client := { rawurl := "u/", authID := "", authPW := "", nostart := false,
                  token := "boot", jar := none },
      pending := [TransportResult.resp
        { statusCode := 200, headers := [(TokenHeader, "t9")],
          bodyReadErr := false, body := .malformed }],
      sent := [] } "p" none true
  constructor
  · rw [h.1 _ [] rfl]
    decide
  · rw [h.2.2.2 _ [] rfl rfl rfl]
    rfl

/-! ## Claim C4: boolean-acknowledgement call -/

/-- C4 counterexample: a raw mapping whose response field is present but
not scalar text makes doReqCheckOK fail with the invalid-value error, not
the invalid-response error the claim names. -/
theorem bool_ack_nonscalar_counterexample :
    (doReqCheckOK { client := { rawurl := "u/", authID := "", authPW := "",
                                nostart := false, token := "t", jar := none },
                    pending := [TransportResult.resp
                      { statusCode := 200, headers := [], bodyReadErr := false,
                        body := .doc "response" (.strMap []) }],
                    sent := [] } "p" none).2 = .error Err.ErrInvalidValue ∧
    Err.ErrInvalidValue ≠ Err.ErrInvalidResponse := by
  exact ⟨rfl, by decide⟩

/-- C4 amended: doReqCheckOK uses the raw (non-unwrapped) decode; a
top-level response field with scalar text s yields acknowledgement true
iff s is exactly the literal OK, with no error; a mapping with no
response field yields the invalid-response error; and a response field
whose value is not scalar text yields the invalid-value error. -/
theorem bool_ack_contract (w : Conn) (path : String) (v : Option Payload)
    (r : HttpResponse) (rest : List TransportResult) (n : String) (content : GoVal)
    (hp : w.pending = .resp r :: rest) (hs : r.statusCode = 200)
    (hb : r.bodyReadErr = false) (hbody : r.body = .doc n content) :
    (∀ s, content = .str s → n = "response" →
      (doReqCheckOK w path v).2 = .ok (s == "OK")) ∧
    (n ≠ "response" → (doReqCheckOK w path v).2 = .error .ErrInvalidResponse) ∧
    (n = "response" → (∀ s, content ≠ .str s) →
      (doReqCheckOK w path v).2 = .error .ErrInvalidValue) := by
  have hd : doReq w path v false =
      ({ client := if headerGet r.headers TokenHeader ≠ "" then
            { w.client with token := headerGet r.headers TokenHeader } else w.client,
         pending := rest,
         sent := w.sent ++ [createRequest w.client (w.client.rawurl ++ path) v] },
       .ok (.mxjMap [(n, content)])) := by
    rw [doReq_resp_ok w path v false r rest hp hs hb, hbody]
    rfl
  unfold doReqCheckOK
  rw [hd]
  refine ⟨?_, ?_, ?_⟩
  · rintro s rfl rfl
    simp [List.lookup]
  · intro hne
    have hbf : ("response" == n) = false := by
      simpa using Ne.symm hne
    simp [List.lookup, hbf]
  · rintro rfl hno
    cases content with
    | str s => exact absurd rfl (hno s)
    | strMap fs => simp [List.lookup]
    | mxjMap fs => simp [List.lookup]

/-- Witness for C4 amended: a response body FAILED acknowledges false with
no error, and a document whose root is not named response is an invalid
response. -/
theorem bool_ack_contract_witness :
    (doReqCheckOK { client := { rawurl := "u/", authID := "", authPW := "",
                                nostart := false, token := "t", jar := none },
                    pending := [TransportResult.resp
                      { statusCode := 200, headers := [], bodyReadErr := false,
                        body := .doc "response" (.str "FAILED") }],
                    sent := [] } "p" none).2 = .ok false ∧
    (doReqCheckOK { client := { rawurl := "u/", authID := "", authPW := "",
                                nostart := false, token := "t", jar := none },
                    pending := [TransportResult.resp
                      { statusCode := 200, headers := [], bodyReadErr := false,
                        body := .doc "other" (.str "OK") }],
                    sent := [] } "p" none).2 = .error .ErrInvalidResponse := by
  constructor
  · have h := bool_ack_contract
      { client := { rawurl := "u/", authID := "", authPW := "",
                    nostart := false, token := "t", jar := none },
        pending := [TransportResult.resp
          { statusCode := 200, headers := [], bodyReadErr := false,
            body := .doc "response" (.str "FAILED") }],
        sent := [] } "p" none
      { statusCode := 200, headers := [], bodyReadErr := false,
        body := .doc "response" (.str "FAILED") } [] "response" (.str "FAILED")
      rfl rfl rfl rfl
    exact h.1 "FAILED" rfl rfl
  · have h := bool_ack_contract
      { client := { rawurl := "u/", authID := "", authPW := "",
                    nostart := false, token := "t", jar := none },
        pending := [TransportResult.resp
          { statusCode := 200, headers := [], bodyReadErr := false,
            body := .doc "other" (.str "OK") }],
        sent := [] } "p" none
      { statusCode := 200, headers := [], bodyReadErr := false,
        body := .doc "other" (.str "OK") } [] "other" (.str "OK")
      rfl rfl rfl rfl
    exact h.2.1 (by decide)

/-! ## Claim C6: scalar-field call error taxonomy -/

/-- C6: doReqString projects the named field out of the unwrapped flat
mapping and returns its text; an absent field fails with the
invalid-response error — the code's realization of the FieldMissing
kind, a named field absent in an otherwise valid mapping — and a field
present with a non-scalar value fails with the invalid-value error. -/
theorem scalar_field_contract (w : Conn) (path : String) (v : Option Payload)
    (elName : String) (r : HttpResponse) (rest : List TransportResult)
    (nm : String) (fields : List (String × GoVal))
    (hp : w.pending = .resp r :: rest) (hs : r.statusCode = 200)
    (hb : r.bodyReadErr = false) (hbody : r.body = .doc nm (.strMap fields)) :
    (∀ s, fields.lookup elName = some (.str s) →
      (doReqString w path v elName).2 = .ok s) ∧
    (fields.lookup elName = none →
      (doReqString w path v elName).2 = .error .ErrInvalidResponse) ∧
    (∀ g, fields.lookup elName = some g → (∀ s, g ≠ .str s) →
      (doReqString w path v elName).2 = .error .ErrInvalidValue) := by
  have hd : doReq w path v true =
      ({ client := if headerGet r.headers TokenHeader ≠ "" then
            { w.client with token := headerGet r.headers TokenHeader } else w.client,
         pending := rest,
         sent := w.sent ++ [createRequest w.client (w.client.rawurl ++ path) v] },
       .ok (.strMap fields)) := by
    rw [doReq_resp_ok w path v true r rest hp hs hb, hbody]
    rfl
  unfold doReqString
  rw [hd]
  refine ⟨?_, ?_, ?_⟩
  · intro s hl
    simp [hl]
  · intro hl
    simp [hl]
  · intro g hl hno
    cases g with
    | str s => exact absurd rfl (hno s)
    | strMap fs => simp [hl]
    | mxjMap fs => simp [hl]

/-- Witness for C6: a present scalar field is returned, an absent field is
the invalid-response failure, a nested field the invalid-value failure. -/
theorem scalar_field_contract_witness :
    (doReqString { client := { rawurl := "u/", authID := "", authPW := "",
                               nostart := false, token := "t", jar := none },
                   pending := [TransportResult.resp
                     { statusCode := 200, headers := [], bodyReadErr := false,
                       body := .doc "response" (.strMap [("Version", .str "1.0")]) }],
                   sent := [] } "p" none "Version").2 = .ok "1.0" ∧
    (doReqString { client := { rawurl := "u/", authID := "", authPW := "",
                               nostart := false, token := "t", jar := none },
                   pending := [TransportResult.resp
                     { statusCode := 200, headers := [], bodyReadErr := false,
                       body := .doc "response" (.strMap [("Other", .str "1.0")]) }],
                   sent := [] } "p" none "Version").2 = .error .ErrInvalidResponse ∧
    (doReqString { client := { rawurl := "u/", authID := "", authPW := "",
                               nostart := false, token := "t", jar := none },
                   pending := [TransportResult.resp
                     { statusCode := 200, headers := [], bodyReadErr := false,
                       body := .doc "response" (.strMap [("Version", .strMap [])]) }],
                   sent := [] } "p" none "Version").2 = .error .ErrInvalidValue := by
  refine ⟨?_, ?_, ?_⟩
  · exact (scalar_field_contract
      { client := { rawurl := "u/", authID := "", authPW := "",
                    nostart := false, token := "t", jar := none },
        pending := [TransportResult.resp
          { statusCode := 200, headers := [], bodyReadErr := false,
            body := .doc "response" (.strMap [("Version", .str "1.0")]) }],
        sent := [] } "p" none "Version"
      { statusCode := 200, headers := [], bodyReadErr := false,
        body := .doc "response" (.strMap [("Version", .str "1.0")]) } []
      "response" [("Version", .str "1.0")] rfl rfl rfl rfl).1 "1.0" rfl
  · exact (scalar_field_contract
      { client := { rawurl := "u/", authID := "", authPW := "",
                    nostart := false, token := "t", jar := none },
        pending := [TransportResult.resp
          { statusCode := 200, headers := [], bodyReadErr := false,
            body := .doc "response" (.strMap [("Other", .str "1.0")]) }],
        sent := [] } "p" none "Version"
      { statusCode := 200, headers := [], bodyReadErr := false,
        body := .doc "response" (.strMap [("Other", .str "1.0")]) } []
      "response" [("Other", .str "1.0")] rfl rfl rfl rfl).2.1 rfl
  · exact (scalar_field_contract
      { client := { rawurl := "u/", authID := "", authPW := "",
                    nostart := false, token := "t", jar := none },
        pending := [TransportResult.resp
          { statusCode := 200, headers := [], bodyReadErr := false,
            body := .doc "response" (.strMap [("Version", .strMap [])]) }],
        sent := [] } "p" none "Version"
      { statusCode := 200, headers := [], bodyReadErr := false,
        body := .doc "response" (.strMap [("Version", .strMap [])]) } []
      "response" [("Version", .strMap [])] rfl rfl rfl rfl).2.2 (.strMap []) rfl
      (fun s h => by cases h)

/-- NewSessionAndTokenID returns whatever connection state its one raw
exchange left behind, in every branch: it never installs session state
itself. -/
theorem NewSessionAndTokenID_conn (w : Conn) :
    (NewSessionAndTokenID w).1 = (doReq w "api/webserver/SesTokInfo" none true).1 := by
  unfold NewSessionAndTokenID
  cases h : doReq w "api/webserver/SesTokInfo" none true with
  | mk w1 res =>
    cases res with
    | error e => rfl
    | ok m =>
      cases m with
      | str s => rfl
      | mxjMap o => rfl
      | strMap vals =>
        cases hses : vals.lookup "SesInfo" with
        | none => simp [hses]
        | some sesInfo =>
          cases htok : vals.lookup "TokInfo" with
          | none => simp [hses, htok]
          | some tokInfo =>
            cases sesInfo <;> cases tokInfo <;> simp [hses, htok]

/-! ## Claim C7: session bootstrap contract -/

/-- C7: NewSessionAndTokenID performs one unauthenticated GET of the
session-info endpoint; it fails with the invalid-response error whenever
the SesInfo or the TokInfo field is absent or not scalar text; on success
it returns the session id with the literal SessionID= prefix stripped,
together with the token; and in every outcome it leaves the cookie jar
untouched — installation happens only in SetSessionAndTokenID. -/
theorem session_bootstrap_contract (w : Conn) :
    ((NewSessionAndTokenID w).1).client.jar = w.client.jar ∧
    ((NewSessionAndTokenID w).1).sent =
      w.sent ++ [createRequest w.client (w.client.rawurl ++ "api/webserver/SesTokInfo") none] ∧
    (∀ r rest nm vals, w.pending = .resp r :: rest → r.statusCode = 200 →
      r.bodyReadErr = false → r.body = .doc nm (.strMap vals) →
      ((vals.lookup "SesInfo" = none →
         (NewSessionAndTokenID w).2 = .error .ErrInvalidResponse) ∧
       (vals.lookup "TokInfo" = none →
         (NewSessionAndTokenID w).2 = .error .ErrInvalidResponse) ∧
       (∀ gs gt, vals.lookup "SesInfo" = some gs → vals.lookup "TokInfo" = some gt →
         (∀ s, gs ≠ .str s) →
         (NewSessionAndTokenID w).2 = .error .ErrInvalidResponse) ∧
       (∀ s gt, vals.lookup "SesInfo" = some (.str s) → vals.lookup "TokInfo" = some gt →
         (∀ t, gt ≠ .str t) →
         (NewSessionAndTokenID w).2 = .error .ErrInvalidResponse) ∧
       (∀ s t, vals.lookup "SesInfo" = some (.str s) → vals.lookup "TokInfo" = some (.str t) →
         (NewSessionAndTokenID w).2 = .ok (trimPref s "SessionID=", t)))) := by
  refine ⟨by rw [NewSessionAndTokenID_conn, doReq_jar],
          by rw [NewSessionAndTokenID_conn, doReq_sent], ?_⟩
  intro r rest nm vals hp hs hb hbody
  have hd : doReq w "api/webserver/SesTokInfo" none true =
      ({ client := if headerGet r.headers TokenHeader ≠ "" then
            { w.client with token := headerGet r.headers TokenHeader } else w.client,
         pending := rest,
         sent := w.sent ++
           [createRequest w.client (w.client.rawurl ++ "api/webserver/SesTokInfo") none] },
       .ok (.strMap vals)) := by
    rw [doReq_resp_ok w "api/webserver/SesTokInfo" none true r rest hp hs hb, hbody]
    rfl
  unfold NewSessionAndTokenID
  rw [hd]
  refine ⟨?_, ?_, ?_, ?_, ?_⟩
  · intro hses
    simp [hses]
  · intro htok
    cases hses : vals.lookup "SesInfo" with
    | none => simp [hses]
    | some g => simp [hses, htok]
  · intro gs gt hses htok hno
    cases gs with
    | str s => exact absurd rfl (hno s)
    | strMap fs => cases gt <;> simp [hses, htok]
    | mxjMap fs => cases gt <;> simp [hses, htok]
  · intro s gt hses htok hno
    cases gt with
    | str t => exact absurd rfl (hno t)
    | strMap fs => simp [hses, htok]
    | mxjMap fs => simp [hses, htok]
  · intro s t hses htok
    simp [hses, htok]

/-- Witness for C7: a response missing TokInfo fails with the
invalid-response error and leaves the jar untouched, and a complete
response returns the prefix-stripped session id with the token. -/
theorem session_bootstrap_contract_witness :
    (NewSessionAndTokenID { client := { rawurl := "u/", authID := "", authPW := "",
                                        nostart := false, token := "", jar := none },
                            pending := [TransportResult.resp
                              { statusCode := 200, headers := [], bodyReadErr := false,
                                body := .doc "response"
                                  (.strMap [("SesInfo", .str "SessionID=abc")]) }],
                            sent := [] }).2 = .error .ErrInvalidResponse ∧
    ((NewSessionAndTokenID { client := { rawurl := "u/", authID := "", authPW := "",
                                         nostart := false, token := "", jar := none },
                             pending := [TransportResult.resp
                               { statusCode := 200, headers := [], bodyReadErr := false,
                                 body := .doc "response"
                                   (.strMap [("SesInfo", .str "SessionID=abc")]) }],
                             sent := [] }).1).client.jar = none ∧
    (NewSessionAndTokenID { client := { rawurl := "u/", authID := "", authPW := "",
                                        nostart := false, token := "", jar := none },
                            pending := [TransportResult.resp
                              { statusCode := 200, headers := [], bodyReadErr := false,
                                body := .doc "response"
                                  (.strMap [("SesInfo", .str "SessionID=abc"),
                                            ("TokInfo", .str "tk")]) }],
                            sent := [] }).2 = .ok ("abc", "tk") := by
  refine ⟨?_, ?_, ?_⟩
  · exact (((session_bootstrap_contract
      { client := { rawurl := "u/", authID := "", authPW := "",
                    nostart := false, token := "", jar := none },
        pending := [TransportResult.resp
          { statusCode := 200, headers := [], bodyReadErr := false,
            body := .doc "response" (.strMap [("SesInfo", .str "SessionID=abc")]) }],
        sent := [] }).2.2
      { statusCode := 200, headers := [], bodyReadErr := false,
        body := .doc "response" (.strMap [("SesInfo", .str "SessionID=abc")]) } []
      "response" [("SesInfo", .str "SessionID=abc")] rfl rfl rfl rfl).2.1) rfl
  · exact (session_bootstrap_contract
      { client := { rawurl := "u/", authID := "", authPW := "",
                    nostart := false, token := "", jar := none },
        pending := [TransportResult.resp
          { statusCode := 200, headers := [], bodyReadErr := false,
            body := .doc "response" (.strMap [("SesInfo", .str "SessionID=abc")]) }],
        sent := [] }).1
  · have h := (((session_bootstrap_contract
      { client := { rawurl := "u/", authID := "", authPW := "",
                    nostart := false, token := "", jar := none },
        pending := [TransportResult.resp
          { statusCode := 200, headers := [], bodyReadErr := false,
            body := .doc "response" (.strMap [("SesInfo", .str "SessionID=abc"),
                                              ("TokInfo", .str "tk")]) }],
        sent := [] }).2.2
      { statusCode := 200, headers := [], bodyReadErr := false,
        body := .doc "response" (.strMap [("SesInfo", .str "SessionID=abc"),
                                          ("TokInfo", .str "tk")]) } []
      "response" [("SesInfo", .str "SessionID=abc"), ("TokInfo", .str "tk")]
      rfl rfl rfl rfl).2.2.2.2) "SessionID=abc" "tk" rfl rfl
    rw [h]
    rfl

/-! ## Claim C8: SMS length fail-fast -/

/-- C8: a message whose raw byte length is 160 or more makes SmsSend
return the message-too-long error with the connection completely
untouched — no request issued, no scripted behaviour consumed, no client
state changed; a strictly shorter message passes the check and exactly
one send-sms request is handed to the transport. -/
theorem sms_length_guard (w : Conn) (msg : String) (dst : List String) (now : String) :
    (160 ≤ (strBytes msg).length →
      SmsSend w msg dst now = (w, .error .ErrMessageTooLong)) ∧
    ((strBytes msg).length < 160 →
      ((SmsSend w msg dst now).1).sent =
        w.sent ++ [createRequest w.client (w.client.rawurl ++ "api/sms/send-sms")
          (some (smsPayload msg dst now))]) := by
  constructor
  · intro hlong
    unfold SmsSend
    rw [if_pos hlong]
  · intro hshort
    unfold SmsSend
    rw [if_neg (by omega)]
    rw [doReqCheckOK_conn, doReq_sent]

/-- Witness for C8: 160 bytes of the letter a are rejected with the
connection unchanged, while a two-byte message issues one request. -/
theorem sms_length_guard_witness :
    SmsSend { client := { rawurl := "u/", authID := "", authPW := "", nostart := false,
                          token := "t", jar := none },
              pending := [], sent := [] }
        (String.mk (List.replicate 160 'a')) ["555"] "2026-10-11 00:00:00" =
      ({ client := { rawurl := "u/", authID := "", authPW := "", nostart := false,
                     token := "t", jar := none },
         pending := [], sent := [] }, .error .ErrMessageTooLong) ∧
    ((SmsSend { client := { rawurl := "u/", authID := "", authPW := "", nostart := false,
                            token := "t", jar := none },
                pending := [], sent := [] } "hi" ["555"] "2026-10-11 00:00:00").1).sent =
      [createRequest { rawurl := "u/", authID := "", authPW := "", nostart := false,
                       token := "t", jar := none } ("u/" ++ "api/sms/send-sms")
        (some (smsPayload "hi" ["555"] "2026-10-11 00:00:00"))] := by
  constructor
  · exact (sms_length_guard
      { client := { rawurl := "u/", authID := "", authPW := "", nostart := false,
                    token := "t", jar := none },
        pending := [], sent := [] }
      (String.mk (List.replicate 160 'a')) ["555"] "2026-10-11 00:00:00").1 (by decide)
  · exact (sms_length_guard
      { client := { rawurl := "u/", authID := "", authPW := "", nostart := false,
                    token := "t", jar := none },
        pending := [], sent := [] } "hi" ["555"] "2026-10-11 00:00:00").2 (by decide)

/-! ## Claim C10: auto-start construction discards the login boolean -/

/-- C10: with auto-start (nostart false) and a successful session
bootstrap and install, NewClient succeeds whenever login returns without
error, whatever boolean acknowledgement the device gave — a non-OK login
answer still yields a constructed client — and construction aborts
exactly when login returns an error. -/
theorem newclient_discards_login_ok (cfg : Config) (device : List TransportResult)
    (hns : cfg.nostart = false) :
    (∀ w1 sess tok w3 b,
      NewSessionAndTokenID (initConn cfg device) = (w1, .ok (sess, tok)) →
      login (SetSessionAndTokenID w1 sess tok) = (w3, .ok b) →
      NewClient cfg device = .ok w3) ∧
    (∀ w1 sess tok w3 e,
      NewSessionAndTokenID (initConn cfg device) = (w1, .ok (sess, tok)) →
      login (SetSessionAndTokenID w1 sess tok) = (w3, .error e) →
      NewClient cfg device = .error e) := by
  constructor
  · intro w1 sess tok w3 b hA hL
    unfold NewClient
    rw [hns]
    simp only [Bool.false_eq_true, if_false]
    rw [hA]
    simp [hL]
  · intro w1 sess tok w3 e hA hL
    unfold NewClient
    rw [hns]
    simp only [Bool.false_eq_true, if_false]
    rw [hA]
    simp [hL]

/-- Witness for C10: a device that bootstraps the session and then answers
the login request with FAILED (login returns false with no error) still
yields a successfully constructed client. -/
theorem newclient_discards_login_ok_witness :
    NewClient { rawurl := "u/", authID := "admin", authPW := "pw", nostart := false }
        [TransportResult.resp
          { statusCode := 200, headers := [(TokenHeader, "tok1")], bodyReadErr := false,
            body := .doc "response" (.strMap [("SesInfo", .str "abc"),
                                              ("TokInfo", .str "tok1")]) },
         TransportResult.resp
          { statusCode := 200, headers := [], bodyReadErr := false,
            body := .doc "response" (.str "FAILED") }] =
      .ok ((login (SetSessionAndTokenID
        ((NewSessionAndTokenID (initConn
          { rawurl := "u/", authID := "admin", authPW := "pw", nostart := false }
          [TransportResult.resp
            { statusCode := 200, headers := [(TokenHeader, "tok1")], bodyReadErr := false,
              body := .doc "response" (.strMap [("SesInfo", .str "abc"),
                                                ("TokInfo", .str "tok1")]) },
           TransportResult.resp
            { statusCode := 200, headers := [], bodyReadErr := false,
              body := .doc "response" (.str "FAILED") }])).1) "abc" "tok1")).1) := by
  exact (newclient_discards_login_ok
    { rawurl := "u/", authID := "admin", authPW := "pw", nostart := false }
    [TransportResult.resp
      { statusCode := 200, headers := [(TokenHeader, "tok1")], bodyReadErr := false,
        body := .doc "response" (.strMap [("SesInfo", .str "abc"),
                                          ("TokInfo", .str "tok1")]) },
     TransportResult.resp
      { statusCode := 200, headers := [], bodyReadErr := false,
        body := .doc "response" (.str "FAILED") }] rfl).1 _ "abc" "tok1" _ false rfl rfl

end Hilink
